import Mathlib

/-!
Verification development for the CadQuery MCP server
(`cadquery_fastmcp.py` together with `cq_editor_bridge.py`).

The embedding models the workspace/object lifecycle, the boolean-operation
pipeline and the export pipeline.  The external geometry kernel
(`cadquery` / `exporters`) is modelled as an opaque `Engine` record of
fallible functions, and the module-level flag `CADQUERY_AVAILABLE` is a
field of the environment, so both the real and the mock branches of every
operation are represented.  The filesystem is an association list from
paths to file contents; an `exporters.export` call is modelled as the
engine producing the file content, which the operation then writes at the
destination path.  Python floats are carried opaquely (no arithmetic is
ever performed on them), so they are represented by `Int`.  A Python
exception escaping an operation is represented by `OpResult.raised`.
-/

namespace CadQueryMcp

/-- Numeric parameter values (Python floats, carried opaquely: the server
never computes with them, it only stores and echoes them). -/
abbrev Val := Int

/-- Opaque geometry handles handed out by the geometry engine
(`cq.Workplane` values and solids). -/
abbrev Geo := Nat

/-- Lookup in an association list keyed by strings (Python dict read). -/
def listLookup {β : Type} (k : String) : List (String × β) → Option β
  | [] => none
  | (k', v) :: rest => if k' = k then some v else listLookup k rest

/-- Insert-or-overwrite in an association list (Python dict write): an
existing key keeps its position and gets the new value, a new key is
appended at the end, matching dict insertion order and `len` semantics. -/
def listInsert {β : Type} (k : String) (v : β) : List (String × β) → List (String × β)
  | [] => [(k, v)]
  | (k', v') :: rest => if k' = k then (k, v) :: rest else (k', v') :: listInsert k v rest

/-- Test whether the first list of characters starts with the second. -/
def charsStartWith : List Char → List Char → Bool
  | _, [] => true
  | [], _ :: _ => false
  | a :: as, b :: bs => a = b && charsStartWith as bs

/-- Test whether the second list of characters occurs (contiguously)
anywhere inside the first. -/
def charsContain (hay needle : List Char) : Bool :=
  match hay with
  | [] => charsStartWith [] needle
  | _ :: t => charsStartWith hay needle || charsContain t needle

/-- Python substring test `needle in hay`. -/
def strContains (hay needle : String) : Bool :=
  charsContain hay.toList needle.toList

/-- Lowercasing as performed by Python `str.lower` (char-by-char; the
format and path strings involved are ASCII). -/
def strLower (s : String) : String := String.mk (s.data.map Char.toLower)

/-- Uppercasing as performed by Python `str.upper`. -/
def strUpper (s : String) : String := String.mk (s.data.map Char.toUpper)

/-- Suffix test as performed by Python `str.endswith`. -/
def sEndsWith (s suf : String) : Bool := charsStartWith s.data.reverse suf.data.reverse

/-- Test whether the first string starts with the second. -/
def strStartsWith (s pre : String) : Bool := charsStartWith s.data pre.data

/-- First line of a file as produced by Python `readline` (the trailing
newline that `readline` keeps is immaterial for the substring test the
code performs on it, so it is dropped here). -/
def firstLine (s : String) : String := String.mk (s.data.takeWhile (fun c => c ≠ '\n'))

/-- Signature token every STEP file starts with; the export validation
looks for it in the first line of the written artifact. -/
def stepSignature : String := "ISO-10303"

/-- Test `filepath.lower().endswith(".step") or filepath.lower().endswith(".stp")`. -/
def endsWithStepFamily (p : String) : Bool :=
  sEndsWith (strLower p) ".step" || sEndsWith (strLower p) ".stp"

/-- Record stored in `workspace["objects"]` for one modeling object.  The
`workplane` component is the opaque engine handle; it is `none` for
objects created in mock mode (whose Python dicts lack the key). -/
inductive ObjData : Type where
  | box (width length height : Val) (centered : Bool) (workplane : Option Geo)
  | cylinder (radius height : Val) (centered : Bool) (workplane : Option Geo)
  | boolean (operation target tool : String) (workplane : Option Geo)
  | scriptObj (script : String) (workplane : Option Geo)
deriving DecidableEq

/-- Geometry handle stored in an object record (`obj.get("workplane")`). -/
def ObjData.workplane : ObjData → Option Geo
  | .box _ _ _ _ w => w
  | .cylinder _ _ _ w => w
  | .boolean _ _ _ w => w
  | .scriptObj _ w => w

/-- One workspace: the name-to-object mapping and the current-object
reference.  The engine-owned `assembly` handle is opaque to every
operation modelled here and is omitted. -/
structure Workspace : Type where
  objects : List (String × ObjData)
  currentObject : Option String
deriving DecidableEq

/-- Whole-process state: the workspace table, the active-workspace id and
the filesystem (path to file content). -/
structure Sys : Type where
  workspaces : List (String × Workspace)
  currentWorkspaceId : String
  fs : List (String × String)
deriving DecidableEq

/-- Opaque geometry engine: each field models one call into `cadquery` /
`exporters`.  A `.error` result models the call raising an exception; the
export calls produce the content of the file they would write. -/
structure Engine : Type where
  mkBox : Val → Val → Val → Bool → Except String Geo
  mkCylinder : Val → Val → Except String Geo
  union : Geo → Geo → Except String Geo
  cut : Geo → Geo → Except String Geo
  intersect : Geo → Geo → Except String Geo
  execScript : String → Except String (Option Geo)
  stlContent : Geo → Except String String
  stepContent : Geo → Except String String
  hasSolid : Geo → Bool
  findSolid : Geo → Geo

/-- Execution environment: the module-level `CADQUERY_AVAILABLE` flag and
the engine behind it. -/
structure Env : Type where
  cadqueryAvailable : Bool
  engine : Engine

/-- Result dictionary returned by an operation. -/
structure Payload : Type where
  status : String
  message : String
  objectId : Option String := none
  workspaceId : Option String := none
  dimensions : List (String × Val) := []
  files : List (String × String) := []
  script : Option String := none
deriving DecidableEq

/-- Outcome of one operation call: either a returned result dictionary or
a Python exception escaping the operation. -/
inductive OpResult : Type where
  | ret (p : Payload)
  | raised (msg : String)
deriving DecidableEq

/-- Status field of a returned payload (`none` when the call raised). -/
def payloadStatus : OpResult → Option String
  | .ret p => some p.status
  | .raised _ => none

/-- Object id field of a returned payload. -/
def payloadObjectId : OpResult → Option String
  | .ret p => p.objectId
  | .raised _ => none

/-- Files field of a returned payload. -/
def payloadFiles : OpResult → Option (List (String × String))
  | .ret p => some p.files
  | .raised _ => none

/-- Error payload as built at every error return site. -/
def errPayload (msg : String) : Payload :=
  { status := "error", message := msg }

/-- Scratch directory created by `tempfile.mkdtemp` at module load. -/
def temp_dir : String := "/tmp/cadquery_mcp_main"

/-- Scratch directory of the editor bridge created in
`integrate_with_mcp_server`. -/
def bridgeTempDir : String := "/tmp/cadquery_mcp_bridge"

/-- Shared script file the bridge hands to the external editor. -/
def bridgeScriptFile : String := bridgeTempDir ++ "/current_script.py"

/-- Content the bridge constructor writes into the script file. -/
def initialBridgeScript : String :=
  "import cadquery as cq\n\n# Initial empty script\nresult = cq.Workplane(\x27XY\x27)"

/-- Helper `get_current_workspace` (a missing key would be a Python
`KeyError`, hence the `Option`). -/
def getWs (s : Sys) : Option Workspace :=
  listLookup s.currentWorkspaceId s.workspaces

/-- Write back the (mutated) current workspace. -/
def putWs (s : Sys) (w : Workspace) : Sys :=
  { s with workspaces := listInsert s.currentWorkspaceId w s.workspaces }

/-- Write a file (create or overwrite). -/
def fsWrite (path content : String) (fs : List (String × String)) : List (String × String) :=
  listInsert path content fs

/-- Operation `create_workspace`. -/
def create_workspace (_env : Env) (name : String) (s : Sys) : OpResult × Sys :=
  if (listLookup name s.workspaces).isSome then
    (.ret (errPayload ("Workspace \x27" ++ name ++ "\x27 already exists")), s)
  else
    let s' : Sys :=
      { s with workspaces := listInsert name { objects := [], currentObject := none } s.workspaces,
               currentWorkspaceId := name }
    (.ret { status := "success", message := "Created workspace: " ++ name,
            workspaceId := some name }, s')

/-- Operation `switch_workspace`. -/
def switch_workspace (_env : Env) (name : String) (s : Sys) : OpResult × Sys :=
  if (listLookup name s.workspaces).isSome then
    (.ret { status := "success", message := "Switched to workspace: " ++ name,
            workspaceId := some name }, { s with currentWorkspaceId := name })
  else
    (.ret (errPayload ("Workspace \x27" ++ name ++ "\x27 does not exist")), s)

/-- Operation `create_box`.  Note the real branch has no `try` block: an
engine exception during construction or STL export escapes the
operation. -/
def create_box (env : Env) (width length height : Val) (centered : Bool)
    (name : Option String) (s : Sys) : OpResult × Sys :=
  match getWs s with
  | none => (.raised "KeyError", s)
  | some ws =>
    let nm := name.getD ("box_" ++ toString ws.objects.length)
    let stlPath := temp_dir ++ "/" ++ nm ++ ".stl"
    let payload : Payload :=
      { status := "success", message := "Created box: " ++ nm, objectId := some nm,
        dimensions := [("width", width), ("length", length), ("height", height)],
        files := [("stl", stlPath)] }
    if env.cadqueryAvailable then
      match env.engine.mkBox width length height centered with
      | .error m => (.raised m, s)
      | .ok g =>
        let s1 := putWs s { ws with
          objects := listInsert nm (.box width length height centered (some g)) ws.objects,
          currentObject := some nm }
        match env.engine.stlContent g with
        | .error m => (.raised m, s1)
        | .ok c => (.ret payload, { s1 with fs := fsWrite stlPath c s1.fs })
    else
      let s1 := putWs s { ws with
        objects := listInsert nm (.box width length height centered none) ws.objects,
        currentObject := some nm }
      (.ret payload, { s1 with fs := fsWrite stlPath "Mock STL file content" s1.fs })

/-- Operation `create_cylinder` (the real branch calls
`cylinder(height, radius)` and, like `create_box`, has no `try`). -/
def create_cylinder (env : Env) (radius height : Val) (centered : Bool)
    (name : Option String) (s : Sys) : OpResult × Sys :=
  match getWs s with
  | none => (.raised "KeyError", s)
  | some ws =>
    let nm := name.getD ("cylinder_" ++ toString ws.objects.length)
    let stlPath := temp_dir ++ "/" ++ nm ++ ".stl"
    let payload : Payload :=
      { status := "success", message := "Created cylinder: " ++ nm, objectId := some nm,
        dimensions := [("radius", radius), ("height", height)],
        files := [("stl", stlPath)] }
    if env.cadqueryAvailable then
      match env.engine.mkCylinder height radius with
      | .error m => (.raised m, s)
      | .ok g =>
        let s1 := putWs s { ws with
          objects := listInsert nm (.cylinder radius height centered (some g)) ws.objects,
          currentObject := some nm }
        match env.engine.stlContent g with
        | .error m => (.raised m, s1)
        | .ok c => (.ret payload, { s1 with fs := fsWrite stlPath c s1.fs })
    else
      let s1 := putWs s { ws with
        objects := listInsert nm (.cylinder radius height centered none) ws.objects,
        currentObject := some nm }
      (.ret payload, { s1 with fs := fsWrite stlPath "Mock STL file content" s1.fs })

/-- Common tail of the real branch of `boolean_operation`: store the
result, set it current and export the STL preview (uncaught on error). -/
def booleanFinish (env : Env) (operation target tool nm : String) (ws : Workspace)
    (s : Sys) (res : Except String Geo) : OpResult × Sys :=
  match res with
  | .error m => (.raised m, s)
  | .ok g =>
    let s1 := putWs s { ws with
      objects := listInsert nm (.boolean operation target tool (some g)) ws.objects,
      currentObject := some nm }
    let stlPath := temp_dir ++ "/" ++ nm ++ ".stl"
    match env.engine.stlContent g with
    | .error m => (.raised m, s1)
    | .ok c =>
      (.ret { status := "success",
              message := "Created " ++ operation ++ " between " ++ target ++ " and " ++ tool,
              objectId := some nm, files := [("stl", stlPath)] },
       { s1 with fs := fsWrite stlPath c s1.fs })

/-- Operation `boolean_operation`.  Operand existence is checked first;
in the real branch the operand handles are fetched before the operation
string is dispatched, and the unknown-operation error is returned before
any engine call. -/
def boolean_operation (env : Env) (operation target tool : String)
    (name : Option String) (s : Sys) : OpResult × Sys :=
  match getWs s with
  | none => (.raised "KeyError", s)
  | some ws =>
    match listLookup target ws.objects with
    | none => (.ret (errPayload ("Target object \x27" ++ target ++ "\x27 not found")), s)
    | some tObj =>
      match listLookup tool ws.objects with
      | none => (.ret (errPayload ("Tool object \x27" ++ tool ++ "\x27 not found")), s)
      | some toolObj =>
        let nm := name.getD ("boolean_" ++ toString ws.objects.length)
        if env.cadqueryAvailable then
          match tObj.workplane, toolObj.workplane with
          | some tg, some tlg =>
            if operation = "union" then
              booleanFinish env operation target tool nm ws s (env.engine.union tg tlg)
            else if operation = "subtract" then
              booleanFinish env operation target tool nm ws s (env.engine.cut tg tlg)
            else if operation = "intersect" then
              booleanFinish env operation target tool nm ws s (env.engine.intersect tg tlg)
            else
              (.ret (errPayload ("Unknown boolean operation: " ++ operation)), s)
          | _, _ => (.raised "KeyError", s)
        else
          let s1 := putWs s { ws with
            objects := listInsert nm (.boolean operation target tool none) ws.objects,
            currentObject := some nm }
          let stlPath := temp_dir ++ "/" ++ nm ++ ".stl"
          let mockContent := "Mock STL file for " ++ operation ++ " of " ++ target ++ " and " ++ tool
          (.ret { status := "success",
                  message := "Created " ++ operation ++ " between " ++ target ++ " and " ++ tool,
                  objectId := some nm, files := [("stl", stlPath)] },
           { s1 with fs := fsWrite stlPath mockContent s1.fs })

/-- Solid selection performed before a STEP export: when the workplane
has a truthy `val` and a `findSolid` attribute, the solid is exported,
otherwise the workplane itself. -/
def solidSel (env : Env) (g : Geo) : Geo :=
  if env.engine.hasSolid g then env.engine.findSolid g else g

/-- Operation `export_object`.  The real branch's whole export/validation
body is inside a `try`, so it never raises; validation is performed only
for the STEP family and only when `validate` is set, by re-reading the
written file.  The mock branch performs no format validation at all.
The `os.path.getsize(path) > 0` check is modelled as the content being
nonempty. -/
def export_object (env : Env) (name format : String) (validate : Bool)
    (s : Sys) : OpResult × Sys :=
  match getWs s with
  | none => (.raised "KeyError", s)
  | some ws =>
    match listLookup name ws.objects with
    | none => (.ret (errPayload ("Object \x27" ++ name ++ "\x27 not found")), s)
    | some obj =>
      let fmt := strLower format
      let isStepFormat := fmt = "step" || fmt = "stp"
      let ext := fmt
      let outputPath := temp_dir ++ "/" ++ name ++ "." ++ ext
      let okPayload : Payload :=
        { status := "success", message := "Exported " ++ name ++ " to " ++ ext ++ " format",
          objectId := some name, files := [(ext, outputPath)] }
      if env.cadqueryAvailable then
        if fmt = "stl" then
          match obj.workplane with
          | none => (.ret (errPayload "Export failed: object has no workplane"), s)
          | some g =>
            match env.engine.stlContent g with
            | .error m => (.ret (errPayload ("Export failed: " ++ m)), s)
            | .ok c => (.ret okPayload, { s with fs := fsWrite outputPath c s.fs })
        else if isStepFormat then
          match obj.workplane with
          | none => (.ret (errPayload "Export failed: object has no workplane"), s)
          | some g =>
            match env.engine.stepContent (solidSel env g) with
            | .error m => (.ret (errPayload ("Export failed: " ++ m)), s)
            | .ok c =>
              let s1 : Sys := { s with fs := fsWrite outputPath c s.fs }
              if validate && isStepFormat then
                match listLookup outputPath s1.fs with
                | none =>
                  (.ret (errPayload "Exported file is empty or wasn\x27t created properly"), s1)
                | some content =>
                  if content = "" then
                    (.ret (errPayload "Exported file is empty or wasn\x27t created properly"), s1)
                  else
                    let fl := firstLine content
                    if fl = "" || !(strContains fl stepSignature) then
                      (.ret (errPayload "Exported file does not appear to be a valid STEP file"), s1)
                    else
                      (.ret okPayload, s1)
              else
                (.ret okPayload, s1)
        else
          (.ret (errPayload ("Unsupported export format: " ++ fmt ++
            ". Supported formats: stl, step, stp")), s)
      else
        let c := if isStepFormat then "Mock STEP file content for " ++ name
                 else "Mock " ++ strUpper fmt ++ " file content for " ++ name
        (.ret okPayload, { s with fs := fsWrite outputPath c s.fs })

/-- Output-path resolution of `export_step`: a supplied Python-truthy
(nonempty) path gets a default `.step` extension unless it already ends
in a step-family suffix; otherwise the scratch-directory default is
used. -/
def resolveStepPath (name : String) (filepath : Option String) : String :=
  match filepath with
  | some p =>
    if p = "" then temp_dir ++ "/" ++ name ++ ".step"
    else if endsWithStepFamily p then p else p ++ ".step"
  | none => temp_dir ++ "/" ++ name ++ ".step"

/-- Operation `export_step`.  A companion STL preview is always written
into the scratch directory; there is no post-write validation.  The real
branch's body is inside a `try`, so engine failures become error
payloads. -/
def export_step (env : Env) (name : String) (filepath : Option String)
    (s : Sys) : OpResult × Sys :=
  match getWs s with
  | none => (.raised "KeyError", s)
  | some ws =>
    match listLookup name ws.objects with
    | none => (.ret (errPayload ("Object \x27" ++ name ++ "\x27 not found")), s)
    | some obj =>
      let outputPath := resolveStepPath name filepath
      let stlPath := temp_dir ++ "/" ++ name ++ ".stl"
      let okPayload : Payload :=
        { status := "success", message := "Exported " ++ name ++ " as STEP file",
          objectId := some name, files := [("step", outputPath), ("stl", stlPath)] }
      if env.cadqueryAvailable then
        match obj.workplane with
        | none => (.ret (errPayload "STEP export failed: object has no workplane"), s)
        | some g =>
          match env.engine.stepContent (solidSel env g) with
          | .error m => (.ret (errPayload ("STEP export failed: " ++ m)), s)
          | .ok c =>
            let s1 : Sys := { s with fs := fsWrite outputPath c s.fs }
            match env.engine.stlContent g with
            | .error m => (.ret (errPayload ("STEP export failed: " ++ m)), s1)
            | .ok c2 => (.ret okPayload, { s1 with fs := fsWrite stlPath c2 s1.fs })
      else
        let s1 : Sys :=
          { s with fs := fsWrite outputPath ("Mock STEP file content for " ++ name) s.fs }
        (.ret okPayload,
         { s1 with fs := fsWrite stlPath ("Mock STL file content for " ++ name) s1.fs })

/-- Operation `execute_cq_script`.  The whole real branch is inside a
`try`; a missing `result` binding yields its own error; the STL preview
export happens after registration, so a failing preview export leaves the
object registered while the call reports an error. -/
def execute_cq_script (env : Env) (script : String) (name : Option String)
    (s : Sys) : OpResult × Sys :=
  match getWs s with
  | none => (.raised "KeyError", s)
  | some ws =>
    let nm := name.getD ("script_" ++ toString ws.objects.length)
    let stlPath := temp_dir ++ "/" ++ nm ++ ".stl"
    if env.cadqueryAvailable then
      match env.engine.execScript script with
      | .error m => (.ret (errPayload ("Error executing script: " ++ m)), s)
      | .ok none =>
        (.ret (errPayload
          "Script must define a \x27result\x27 variable containing the CadQuery object"), s)
      | .ok (some g) =>
        let s1 := putWs s { ws with
          objects := listInsert nm (.scriptObj script (some g)) ws.objects,
          currentObject := some nm }
        match env.engine.stlContent g with
        | .error m => (.ret (errPayload ("Error executing script: " ++ m)), s1)
        | .ok c =>
          (.ret { status := "success", message := "Created object from script: " ++ nm,
                  objectId := some nm, files := [("stl", stlPath)] },
           { s1 with fs := fsWrite stlPath c s1.fs })
    else
      let s1 := putWs s { ws with
        objects := listInsert nm (.scriptObj script none) ws.objects,
        currentObject := some nm }
      (.ret { status := "success", message := "Created object from script (mock): " ++ nm,
              objectId := some nm, files := [("stl", stlPath)] },
       { s1 with fs := fsWrite stlPath "Mock STL file content from script" s1.fs })

/-- Operation `render_current_object` (writes a mock PNG in both
branches; differs only in the message). -/
def render_current_object (env : Env) (s : Sys) : OpResult × Sys :=
  match getWs s with
  | none => (.raised "KeyError", s)
  | some ws =>
    match ws.currentObject with
    | none => (.ret (errPayload "No current object selected"), s)
    | some objName =>
      let pngPath := temp_dir ++ "/" ++ objName ++ ".png"
      let msg := if env.cadqueryAvailable then "Rendered " ++ objName
                 else "Rendered " ++ objName ++ " (mock)"
      (.ret { status := "success", message := msg, objectId := some objName,
              files := [("png", pngPath)] },
       { s with fs := fsWrite pngPath "Mock PNG content" s.fs })

/-- Bridge operation `update_cq_script` (overwrites the shared script
file; the write is total in this model). -/
def update_cq_script (_env : Env) (script : String) (s : Sys) : OpResult × Sys :=
  (.ret { status := "success", message := "Script updated in CadQuery Editor",
          files := [("script_file", bridgeScriptFile)] },
   { s with fs := fsWrite bridgeScriptFile script s.fs })

/-- Bridge operation `sync_object_from_editor`: computes a default name
from the workspace's object count, reads the shared script file and
reports success with an object id and the script text — but registers
nothing and leaves the whole state untouched. -/
def sync_object_from_editor (_env : Env) (name : Option String) (s : Sys) : OpResult × Sys :=
  match getWs s with
  | none => (.raised "KeyError", s)
  | some ws =>
    let nm := name.getD ("synced_" ++ toString ws.objects.length)
    match listLookup bridgeScriptFile s.fs with
    | none => (.ret (errPayload "Error syncing from CQ-Editor: script file not found"), s)
    | some script =>
      (.ret { status := "success", message := "Synced object from CQ-Editor: " ++ nm,
              objectId := some nm, script := some script }, s)

/-- One remotely invokable operation together with its arguments. -/
inductive Op : Type where
  | createWorkspace (name : String)
  | switchWorkspace (name : String)
  | createBox (width length height : Val) (centered : Bool) (name : Option String)
  | createCylinder (radius height : Val) (centered : Bool) (name : Option String)
  | booleanOp (operation target tool : String) (name : Option String)
  | exportObject (name format : String) (validate : Bool)
  | exportStep (name : String) (filepath : Option String)
  | execScript (script : String) (name : Option String)
  | renderCurrent
  | updateScript (script : String)
  | syncFromEditor (name : Option String)

/-- Dispatch one operation. -/
def run (env : Env) : Op → Sys → OpResult × Sys
  | .createWorkspace n => create_workspace env n
  | .switchWorkspace n => switch_workspace env n
  | .createBox w l h c n => create_box env w l h c n
  | .createCylinder r h c n => create_cylinder env r h c n
  | .booleanOp o t tl n => boolean_operation env o t tl n
  | .exportObject n f v => export_object env n f v
  | .exportStep n p => export_step env n p
  | .execScript sc n => execute_cq_script env sc n
  | .renderCurrent => render_current_object env
  | .updateScript sc => update_cq_script env sc
  | .syncFromEditor n => sync_object_from_editor env n

/-- Run a sequence of operations, keeping only the state. -/
def runOps (env : Env) (ops : List Op) (s : Sys) : Sys :=
  ops.foldl (fun s op => (run env op s).2) s

/-- Process-start state: the default workspace, empty, with no current
object, and the bridge's initial script file on disk. -/
def initSys : Sys :=
  { workspaces := [("default", { objects := [], currentObject := none })],
    currentWorkspaceId := "default",
    fs := [(bridgeScriptFile, initialBridgeScript)] }

/-- Per-workspace invariant: the current-object reference, if set, names
an entry of the object mapping. -/
def wsInvariant (w : Workspace) : Bool :=
  match w.currentObject with
  | none => true
  | some n => (listLookup n w.objects).isSome

/-- Whole-system invariant: the active-workspace id is registered and
every workspace satisfies `wsInvariant`. -/
def sysInvariant (s : Sys) : Bool :=
  (listLookup s.currentWorkspaceId s.workspaces).isSome &&
    s.workspaces.all (fun kv => wsInvariant kv.2)

/-- Name-to-object mapping of the active workspace of a state. -/
def wsLookupObj (s : Sys) (n : String) : Option ObjData :=
  match getWs s with
  | none => none
  | some ws => listLookup n ws.objects

/-- Object names of the active workspace, in insertion order. -/
def wsObjectNames (s : Sys) : Option (List String) :=
  (getWs s).map (fun ws => ws.objects.map (fun kv => kv.1))

/-- Engine on which every call succeeds and STEP export produces a
well-formed header. -/
def okEngine : Engine :=
  { mkBox := fun _ _ _ _ => .ok 0
    mkCylinder := fun _ _ => .ok 0
    union := fun _ _ => .ok 0
    cut := fun _ _ => .ok 0
    intersect := fun _ _ => .ok 0
    execScript := fun _ => .ok (some 0)
    stlContent := fun _ => .ok "solid model"
    stepContent := fun _ => .ok "ISO-10303-21;\nEND-ISO-10303-21;"
    hasSolid := fun _ => false
    findSolid := fun g => g }

/-- Engine on which every call raises. -/
def failEngine : Engine :=
  { mkBox := fun _ _ _ _ => .error "boom"
    mkCylinder := fun _ _ => .error "boom"
    union := fun _ _ => .error "boom"
    cut := fun _ _ => .error "boom"
    intersect := fun _ _ => .error "boom"
    execScript := fun _ => .error "boom"
    stlContent := fun _ => .error "boom"
    stepContent := fun _ => .error "boom"
    hasSolid := fun _ => false
    findSolid := fun g => g }

/-- Engine whose STEP export writes a first line that contains the STEP
signature token without starting with it. -/
def tamperEngine : Engine :=
  { okEngine with stepContent := fun _ => .ok "junk ISO-10303-21;\nEND-ISO-10303-21;" }

/-- Environment with CadQuery unavailable (mock mode). -/
def envMock : Env := { cadqueryAvailable := false, engine := okEngine }

/-- Environment with CadQuery available and a well-behaved engine. -/
def envReal : Env := { cadqueryAvailable := true, engine := okEngine }

/-- Environment with CadQuery available and an always-raising engine. -/
def envFail : Env := { cadqueryAvailable := true, engine := failEngine }

/-- Environment with CadQuery available and the header-shifting engine. -/
def envTamper : Env := { cadqueryAvailable := true, engine := tamperEngine }

theorem listLookup_insert_self {β : Type} (k : String) (v : β) (l : List (String × β)) :
    listLookup k (listInsert k v l) = some v := by
  induction l with
  | nil => simp [listInsert, listLookup]
  | cons kv rest ih =>
    by_cases h : kv.1 = k
    · simp [listInsert, listLookup, h]
    · simp [listInsert, listLookup, h, ih]

theorem listLookup_insert_ne {β : Type} (k k' : String) (v : β) (l : List (String × β))
    (h : k' ≠ k) : listLookup k' (listInsert k v l) = listLookup k' l := by
  induction l with
  | nil => simp [listInsert, listLookup, Ne.symm h]
  | cons kv rest ih =>
    by_cases hk : kv.1 = k
    · simp [listInsert, listLookup, hk, h, Ne.symm h]
    · by_cases hk' : kv.1 = k'
      · simp [listInsert, listLookup, hk, hk', h, Ne.symm h]
      · simp [listInsert, listLookup, hk, hk', ih]

theorem listAll_insert {β : Type} (P : String × β → Bool) (k : String) (v : β)
    (l : List (String × β)) (hl : l.all P = true) (hv : P (k, v) = true) :
    (listInsert k v l).all P = true := by
  induction l with
  | nil => simp [listInsert, hv]
  | cons kv rest ih =>
    simp only [List.all_cons, Bool.and_eq_true] at hl
    by_cases h : kv.1 = k
    · simp [listInsert, h, hv, hl.2]
    · simp [listInsert, h, hl.1, ih hl.2]

theorem sysInvariant_set_fs (s : Sys) (f : List (String × String)) :
    sysInvariant { s with fs := f } = sysInvariant s := rfl

theorem sysInvariant_putWs (s : Sys) (w : Workspace)
    (hs : sysInvariant s = true) (hw : wsInvariant w = true) :
    sysInvariant (putWs s w) = true := by
  simp only [sysInvariant, Bool.and_eq_true] at hs ⊢
  refine ⟨?_, ?_⟩
  · simp [putWs, listLookup_insert_self]
  · exact listAll_insert _ _ _ _ hs.2 hw

theorem wsInvariant_register (ws : Workspace) (nm : String) (obj : ObjData) :
    wsInvariant { ws with objects := listInsert nm obj ws.objects,
                          currentObject := some nm } = true := by
  simp [wsInvariant, listLookup_insert_self]

theorem create_box_inv (env : Env) (w l h : Val) (c : Bool) (n : Option String) (s : Sys)
    (hs : sysInvariant s = true) : sysInvariant (create_box env w l h c n s).2 = true := by
  unfold create_box
  split
  · exact hs
  · split
    · split
      · exact hs
      · split
        · exact sysInvariant_putWs _ _ hs (wsInvariant_register _ _ _)
        · rw [sysInvariant_set_fs]
          exact sysInvariant_putWs _ _ hs (wsInvariant_register _ _ _)
    · rw [sysInvariant_set_fs]
      exact sysInvariant_putWs _ _ hs (wsInvariant_register _ _ _)

theorem create_cylinder_inv (env : Env) (r h : Val) (c : Bool) (n : Option String) (s : Sys)
    (hs : sysInvariant s = true) : sysInvariant (create_cylinder env r h c n s).2 = true := by
  unfold create_cylinder
  split
  · exact hs
  · split
    · split
      · exact hs
      · split
        · exact sysInvariant_putWs _ _ hs (wsInvariant_register _ _ _)
        · rw [sysInvariant_set_fs]
          exact sysInvariant_putWs _ _ hs (wsInvariant_register _ _ _)
    · rw [sysInvariant_set_fs]
      exact sysInvariant_putWs _ _ hs (wsInvariant_register _ _ _)

theorem booleanFinish_inv (env : Env) (operation target tool nm : String) (ws : Workspace)
    (s : Sys) (res : Except String Geo) (hs : sysInvariant s = true) :
    sysInvariant (booleanFinish env operation target tool nm ws s res).2 = true := by
  unfold booleanFinish
  split
  · exact hs
  · split
    · exact sysInvariant_putWs _ _ hs (wsInvariant_register _ _ _)
    · rw [sysInvariant_set_fs]
      exact sysInvariant_putWs _ _ hs (wsInvariant_register _ _ _)

theorem boolean_operation_inv (env : Env) (operation target tool : String)
    (n : Option String) (s : Sys) (hs : sysInvariant s = true) :
    sysInvariant (boolean_operation env operation target tool n s).2 = true := by
  unfold boolean_operation
  dsimp only
  repeat' split
  all_goals first
    | exact hs
    | exact booleanFinish_inv _ _ _ _ _ _ _ _ hs
    | exact sysInvariant_putWs _ _ hs (wsInvariant_register _ _ _)

theorem export_object_inv (env : Env) (name format : String) (v : Bool) (s : Sys)
    (hs : sysInvariant s = true) : sysInvariant (export_object env name format v s).2 = true := by
  unfold export_object
  dsimp only
  repeat' split
  all_goals exact hs

theorem export_step_inv (env : Env) (name : String) (p : Option String) (s : Sys)
    (hs : sysInvariant s = true) : sysInvariant (export_step env name p s).2 = true := by
  unfold export_step
  dsimp only
  repeat' split
  all_goals exact hs

theorem execute_cq_script_inv (env : Env) (sc : String) (n : Option String) (s : Sys)
    (hs : sysInvariant s = true) : sysInvariant (execute_cq_script env sc n s).2 = true := by
  unfold execute_cq_script
  dsimp only
  repeat' split
  all_goals first
    | exact hs
    | exact sysInvariant_putWs _ _ hs (wsInvariant_register _ _ _)

theorem render_current_object_inv (env : Env) (s : Sys)
    (hs : sysInvariant s = true) : sysInvariant (render_current_object env s).2 = true := by
  unfold render_current_object
  dsimp only
  repeat' split
  all_goals exact hs

theorem update_cq_script_inv (env : Env) (sc : String) (s : Sys)
    (hs : sysInvariant s = true) : sysInvariant (update_cq_script env sc s).2 = true := by
  unfold update_cq_script
  simp only [sysInvariant_set_fs]
  exact hs

theorem sync_object_from_editor_inv (env : Env) (n : Option String) (s : Sys)
    (hs : sysInvariant s = true) : sysInvariant (sync_object_from_editor env n s).2 = true := by
  unfold sync_object_from_editor
  repeat' split
  all_goals exact hs

theorem create_workspace_inv (env : Env) (name : String) (s : Sys)
    (hs : sysInvariant s = true) : sysInvariant (create_workspace env name s).2 = true := by
  unfold create_workspace
  split
  · exact hs
  · simp only [sysInvariant, Bool.and_eq_true] at hs ⊢
    constructor
    · simp [listLookup_insert_self]
    · exact listAll_insert _ _ _ _ hs.2 (by simp [wsInvariant])

theorem switch_workspace_inv (env : Env) (name : String) (s : Sys)
    (hs : sysInvariant s = true) : sysInvariant (switch_workspace env name s).2 = true := by
  unfold switch_workspace
  split
  · next h =>
      simp only [sysInvariant, Bool.and_eq_true] at hs ⊢
      exact ⟨h, hs.2⟩
  · exact hs

theorem run_inv (env : Env) (op : Op) (s : Sys) (hs : sysInvariant s = true) :
    sysInvariant (run env op s).2 = true := by
  cases op with
  | createWorkspace n => exact create_workspace_inv env n s hs
  | switchWorkspace n => exact switch_workspace_inv env n s hs
  | createBox w l h c n => exact create_box_inv env w l h c n s hs
  | createCylinder r h c n => exact create_cylinder_inv env r h c n s hs
  | booleanOp o t tl n => exact boolean_operation_inv env o t tl n s hs
  | exportObject n f v => exact export_object_inv env n f v s hs
  | exportStep n p => exact export_step_inv env n p s hs
  | execScript sc n => exact execute_cq_script_inv env sc n s hs
  | renderCurrent => exact render_current_object_inv env s hs
  | updateScript sc => exact update_cq_script_inv env sc s hs
  | syncFromEditor n => exact sync_object_from_editor_inv env n s hs

theorem runOps_inv (env : Env) (ops : List Op) (s : Sys) (hs : sysInvariant s = true) :
    sysInvariant (runOps env ops s) = true := by
  induction ops generalizing s with
  | nil => exact hs
  | cons op rest ih => exact ih _ (run_inv env op s hs)

theorem sysInvariant_initSys : sysInvariant initSys = true := by decide

/-- Operations whose body converts every failure into an error payload
(everything except the primitive-creation and boolean operations, whose
real branches contain no `try` block). -/
def guarded : Op → Bool
  | .createBox _ _ _ _ _ => false
  | .createCylinder _ _ _ _ => false
  | .booleanOp _ _ _ _ => false
  | _ => true

theorem create_workspace_ret (env : Env) (n : String) (s : Sys) :
    ∃ p, (create_workspace env n s).1 = OpResult.ret p := by
  unfold create_workspace
  split <;> exact ⟨_, rfl⟩

theorem switch_workspace_ret (env : Env) (n : String) (s : Sys) :
    ∃ p, (switch_workspace env n s).1 = OpResult.ret p := by
  unfold switch_workspace
  split <;> exact ⟨_, rfl⟩

theorem export_object_ret (env : Env) (n f : String) (v : Bool) (s : Sys)
    (hw : (getWs s).isSome = true) :
    ∃ p, (export_object env n f v s).1 = OpResult.ret p := by
  unfold export_object
  dsimp only
  repeat' split
  all_goals first | exact ⟨_, rfl⟩ | simp_all

theorem export_step_ret (env : Env) (n : String) (fp : Option String) (s : Sys)
    (hw : (getWs s).isSome = true) :
    ∃ p, (export_step env n fp s).1 = OpResult.ret p := by
  unfold export_step
  dsimp only
  repeat' split
  all_goals first | exact ⟨_, rfl⟩ | simp_all

theorem execute_cq_script_ret (env : Env) (sc : String) (n : Option String) (s : Sys)
    (hw : (getWs s).isSome = true) :
    ∃ p, (execute_cq_script env sc n s).1 = OpResult.ret p := by
  unfold execute_cq_script
  dsimp only
  repeat' split
  all_goals first | exact ⟨_, rfl⟩ | simp_all

theorem render_current_object_ret (env : Env) (s : Sys)
    (hw : (getWs s).isSome = true) :
    ∃ p, (render_current_object env s).1 = OpResult.ret p := by
  unfold render_current_object
  dsimp only
  repeat' split
  all_goals first | exact ⟨_, rfl⟩ | simp_all

theorem update_cq_script_ret (env : Env) (sc : String) (s : Sys) :
    ∃ p, (update_cq_script env sc s).1 = OpResult.ret p := ⟨_, rfl⟩

theorem sync_object_from_editor_ret (env : Env) (n : Option String) (s : Sys)
    (hw : (getWs s).isSome = true) :
    ∃ p, (sync_object_from_editor env n s).1 = OpResult.ret p := by
  unfold sync_object_from_editor
  dsimp only
  repeat' split
  all_goals first | exact ⟨_, rfl⟩ | simp_all

theorem create_box_ret_mock (env : Env) (w l h : Val) (c : Bool) (n : Option String) (s : Sys)
    (hm : env.cadqueryAvailable = false) (hw : (getWs s).isSome = true) :
    ∃ p, (create_box env w l h c n s).1 = OpResult.ret p := by
  unfold create_box
  dsimp only
  repeat' split
  all_goals first | exact ⟨_, rfl⟩ | simp_all

theorem create_cylinder_ret_mock (env : Env) (r h : Val) (c : Bool) (n : Option String) (s : Sys)
    (hm : env.cadqueryAvailable = false) (hw : (getWs s).isSome = true) :
    ∃ p, (create_cylinder env r h c n s).1 = OpResult.ret p := by
  unfold create_cylinder
  dsimp only
  repeat' split
  all_goals first | exact ⟨_, rfl⟩ | simp_all

theorem boolean_operation_ret_mock (env : Env) (o t tl : String) (n : Option String) (s : Sys)
    (hm : env.cadqueryAvailable = false) (hw : (getWs s).isSome = true) :
    ∃ p, (boolean_operation env o t tl n s).1 = OpResult.ret p := by
  unfold boolean_operation
  dsimp only
  repeat' split
  all_goals first | exact ⟨_, rfl⟩ | simp_all

theorem getWs_isSome_of_inv (s : Sys) (hs : sysInvariant s = true) :
    (getWs s).isSome = true := by
  simp only [sysInvariant, Bool.and_eq_true] at hs
  exact hs.1

/-- C1 counterexample: with the geometry engine available and the box
construction raising, `create_box` propagates the exception to its caller
instead of converting it into an error-status payload. -/
theorem c1_counterexample :
    (run envFail (Op.createBox 1 1 1 true none) initSys).1 = OpResult.raised "boom" := by
  decide

/-- C1 (amended): every exposed operation except createBox, createCylinder
and booleanOperation returns a tagged result payload for every reachable
state and every engine behavior, and in mock mode those three operations
return payloads as well; in real mode the three unguarded operations
propagate geometry-engine and export exceptions. -/
theorem c1_amended_no_raise (env : Env) (ops : List Op) (op : Op)
    (h : guarded op = true ∨ env.cadqueryAvailable = false) :
    ∃ p, (run env op (runOps env ops initSys)).1 = OpResult.ret p := by
  have hw : (getWs (runOps env ops initSys)).isSome = true :=
    getWs_isSome_of_inv _ (runOps_inv env ops initSys sysInvariant_initSys)
  cases op with
  | createWorkspace n => exact create_workspace_ret env n _
  | switchWorkspace n => exact switch_workspace_ret env n _
  | createBox w l hh c n =>
    cases h with
    | inl hg => simp [guarded] at hg
    | inr hm => exact create_box_ret_mock env w l hh c n _ hm hw
  | createCylinder r hh c n =>
    cases h with
    | inl hg => simp [guarded] at hg
    | inr hm => exact create_cylinder_ret_mock env r hh c n _ hm hw
  | booleanOp o t tl n =>
    cases h with
    | inl hg => simp [guarded] at hg
    | inr hm => exact boolean_operation_ret_mock env o t tl n _ hm hw
  | exportObject n f v => exact export_object_ret env n f v _ hw
  | exportStep n p => exact export_step_ret env n p _ hw
  | execScript sc n => exact execute_cq_script_ret env sc n _ hw
  | renderCurrent => exact render_current_object_ret env _ hw
  | updateScript sc => exact update_cq_script_ret env sc _
  | syncFromEditor n => exact sync_object_from_editor_ret env n _ hw

/-- C1 amended witness: the export operation returns a payload on the
initial state. -/
theorem c1_amended_no_raise_witness :
    ∃ p, (run envFail (Op.exportObject "b" "stl" true) (runOps envFail [] initSys)).1 =
      OpResult.ret p :=
  c1_amended_no_raise envFail [] (Op.exportObject "b" "stl" true) (Or.inl rfl)

/-- C2: after any sequence of operations from process start, every
workspace's current-object reference, if set, names an entry present in
that workspace's object mapping (and the active-workspace id is always
registered). -/
theorem c2_current_object_invariant (env : Env) (ops : List Op) :
    sysInvariant (runOps env ops initSys) = true :=
  runOps_inv env ops initSys sysInvariant_initSys

theorem getWs_putWs (s : Sys) (w : Workspace) : getWs (putWs s w) = some w := by
  simp [getWs, putWs, listLookup_insert_self]

/-- State with two mock boxes named a and b (engine unavailable). -/
def c3State : Sys :=
  runOps envMock [Op.createBox 1 1 1 true (some "a"), Op.createBox 1 1 1 true (some "b")] initSys

/-- C3 counterexample: in mock mode, booleanOperation with the operation
string "invalid" on two existing operands reports success and registers a
new object instead of failing. -/
theorem c3_counterexample :
    payloadStatus (run envMock (Op.booleanOp "invalid" "a" "b" none) c3State).1 = some "success"
    ∧ wsLookupObj (run envMock (Op.booleanOp "invalid" "a" "b" none) c3State).2 "boolean_2"
        = some (ObjData.boolean "invalid" "a" "b" none) := by
  decide

/-- C3 (amended): when the geometry engine is available, booleanOperation
with an operation string outside union/subtract/intersect on two operands
that exist (and carry engine handles) returns the unknown-operation error
payload and leaves the state unchanged; in mock mode the operation string
is not validated. -/
theorem c3_amended_unknown_operation (env : Env) (s : Sys) (operation target tool : String)
    (nm : Option String) (ws : Workspace) (tObj toolObj : ObjData) (tg tlg : Geo)
    (hav : env.cadqueryAvailable = true)
    (hws : getWs s = some ws)
    (ht : listLookup target ws.objects = some tObj)
    (htl : listLookup tool ws.objects = some toolObj)
    (hwp1 : tObj.workplane = some tg)
    (hwp2 : toolObj.workplane = some tlg)
    (h1 : operation ≠ "union") (h2 : operation ≠ "subtract") (h3 : operation ≠ "intersect") :
    boolean_operation env operation target tool nm s
      = (OpResult.ret (errPayload ("Unknown boolean operation: " ++ operation)), s) := by
  unfold boolean_operation
  rw [hws]
  dsimp only
  rw [ht, htl]
  dsimp only
  rw [hav]
  simp only [if_true]
  rw [hwp1, hwp2]
  simp [h1, h2, h3]

/-- Workspace with two objects that carry engine handles. -/
def pairWs : Workspace :=
  { objects := [("a", ObjData.box 1 1 1 true (some 0)), ("b", ObjData.box 1 1 1 true (some 1))],
    currentObject := some "a" }

/-- State holding `pairWs` as the active default workspace. -/
def pairState : Sys :=
  { workspaces := [("default", pairWs)], currentWorkspaceId := "default", fs := [] }

/-- C3 amended witness at a concrete real-mode state. -/
theorem c3_amended_unknown_operation_witness :
    boolean_operation envReal "invalid" "a" "b" none pairState
      = (OpResult.ret (errPayload ("Unknown boolean operation: " ++ "invalid")), pairState) :=
  c3_amended_unknown_operation envReal pairState "invalid" "a" "b" none pairWs
    (ObjData.box 1 1 1 true (some 0)) (ObjData.box 1 1 1 true (some 1)) 0 1
    rfl rfl rfl rfl rfl rfl (by decide) (by decide) (by decide)

theorem getWs_putWs_fs (s : Sys) (w : Workspace) (f : List (String × String)) :
    getWs { putWs s w with fs := f } = some w := getWs_putWs s w

/-- C4: booleanOperation with an absent target (or tool) returns the
not-found error payload and leaves the state unchanged, and on a
success-status return the registered result object stores the operation
string and both operand names by value (and is the current object). -/
theorem c4_boolean_not_found_frame (env : Env) (s : Sys) (operation target tool : String)
    (nm : Option String) (ws : Workspace) (hws : getWs s = some ws) :
    (listLookup target ws.objects = none →
       boolean_operation env operation target tool nm s
         = (OpResult.ret (errPayload ("Target object \x27" ++ target ++ "\x27 not found")), s))
    ∧ ((listLookup target ws.objects).isSome = true → listLookup tool ws.objects = none →
       boolean_operation env operation target tool nm s
         = (OpResult.ret (errPayload ("Tool object \x27" ++ tool ++ "\x27 not found")), s))
    ∧ (∀ p s', boolean_operation env operation target tool nm s = (OpResult.ret p, s') →
       p.status = "success" →
       ∃ n g ws', p.objectId = some n ∧ getWs s' = some ws'
         ∧ listLookup n ws'.objects = some (ObjData.boolean operation target tool g)
         ∧ ws'.currentObject = some n) := by
  refine ⟨?_, ?_, ?_⟩
  · intro ht
    unfold boolean_operation
    rw [hws]
    dsimp only
    rw [ht]
  · intro ht htl
    unfold boolean_operation
    rw [hws]
    dsimp only
    obtain ⟨tObj, ht'⟩ := Option.isSome_iff_exists.mp ht
    rw [ht']
    dsimp only
    rw [htl]
  · intro p s' hrun hsucc
    unfold boolean_operation booleanFinish at hrun
    rw [hws] at hrun
    dsimp only at hrun
    repeat' split at hrun
    all_goals rw [Prod.mk.injEq] at hrun
    all_goals obtain ⟨h1, h2⟩ := hrun
    all_goals first
      | (injection h1 with h3
         subst h3
         subst h2
         first
           | exact ⟨_, _, _, rfl, getWs_putWs_fs _ _ _, listLookup_insert_self _ _ _, rfl⟩
           | simp [errPayload] at hsucc)
      | injection h1

/-- C4 witness: a missing target yields the not-found error payload and
an unchanged state at a concrete input. -/
theorem c4_boolean_not_found_frame_witness :
    boolean_operation envMock "union" "missing" "b" none pairState
      = (OpResult.ret (errPayload ("Target object \x27" ++ "missing" ++ "\x27 not found")),
         pairState) :=
  (c4_boolean_not_found_frame envMock pairState "union" "missing" "b" none pairWs rfl).1 rfl

/-- State with one mock box named a (engine unavailable). -/
def c5State : Sys := runOps envMock [Op.createBox 1 1 1 true (some "a")] initSys

/-- C5 counterexample: in mock mode exportObject accepts the format
string "xyz" and reports success instead of failing with the
unsupported-format error. -/
theorem c5_counterexample :
    payloadStatus (run envMock (Op.exportObject "a" "xyz" true) c5State).1 = some "success" := by
  decide

/-- C5 (amended): exportObject depends on the format string only through
its lowercasing; when the geometry engine is available, every format
whose lowercasing is not stl, step or stp yields the unsupported-format
error payload with the state unchanged, and stp behaves as an alias of
step with the same validation outcome; in mock mode the format string is
not validated at all. -/
theorem c5_amended_format_validation :
    (∀ env s n f f' v, strLower f = strLower f' →
        export_object env n f v s = export_object env n f' v s)
    ∧ (∀ env s n f v ws obj, env.cadqueryAvailable = true → getWs s = some ws →
        listLookup n ws.objects = some obj →
        strLower f ≠ "stl" → strLower f ≠ "step" → strLower f ≠ "stp" →
        export_object env n f v s
          = (OpResult.ret (errPayload ("Unsupported export format: " ++ strLower f ++
              ". Supported formats: stl, step, stp")), s))
    ∧ (∀ env s n v, payloadStatus (export_object env n "stp" v s).1
          = payloadStatus (export_object env n "step" v s).1) := by
  refine ⟨?_, ?_, ?_⟩
  · intro env s n f f' v h
    unfold export_object
    rw [h]
  · intro env s n f v ws obj hav hws hobj h1 h2 h3
    unfold export_object
    rw [hws]
    dsimp only
    rw [hobj]
    dsimp only
    rw [hav]
    simp [h1, h2, h3]
  · intro env s n v
    unfold export_object
    cases hws : getWs s with
    | none => rfl
    | some ws =>
      dsimp only
      cases hobj : listLookup n ws.objects with
      | none => rfl
      | some obj =>
        dsimp only
        rw [show strLower "stp" = "stp" from rfl, show strLower "step" = "step" from rfl]
        simp only [fsWrite, listLookup_insert_self]
        repeat' split
        all_goals first | rfl | simp_all

/-- C5 amended witness: an unrecognized format at a concrete real-mode
state yields the unsupported-format error payload. -/
theorem c5_amended_format_validation_witness :
    export_object envReal "a" "XYZ" true pairState
      = (OpResult.ret (errPayload ("Unsupported export format: " ++ strLower "XYZ" ++
          ". Supported formats: stl, step, stp")), pairState) :=
  c5_amended_format_validation.2.1 envReal pairState "a" "XYZ" true pairWs
    (ObjData.box 1 1 1 true (some 0)) rfl rfl rfl (by decide) (by decide) (by decide)

/-- State whose active workspace holds one mock object named b, over an
empty filesystem. -/
def c6State : Sys :=
  { workspaces := [("default",
      { objects := [("b", ObjData.box 1 1 1 true none)], currentObject := some "b" })],
    currentWorkspaceId := "default", fs := [] }

/-- C6 counterexample: a successful step-format exportObject call reports
only the STEP path and writes only the STEP artifact — no companion STL
preview is emitted by this entry point. -/
theorem c6_counterexample :
    payloadStatus (run envMock (Op.exportObject "b" "step" true) c6State).1 = some "success"
    ∧ payloadFiles (run envMock (Op.exportObject "b" "step" true) c6State).1
        = some [("step", temp_dir ++ "/b.step")]
    ∧ (run envMock (Op.exportObject "b" "step" true) c6State).2.fs
        = [(temp_dir ++ "/b.step", "Mock STEP file content for b")] := by
  decide

/-- C6 (amended): a successful exportObject call with a STEP-family
format reports exactly the one STEP artifact path (no stl entry) and the
filesystem gains exactly the one write at that path; the companion STL
preview is emitted by exportStep, not by exportObject. -/
theorem c6_amended_step_export_single_artifact (env : Env) (s : Sys) (n f : String) (v : Bool)
    (hf : strLower f = "step" ∨ strLower f = "stp") :
    ∀ p s', export_object env n f v s = (OpResult.ret p, s') → p.status = "success" →
      p.files = [(strLower f, temp_dir ++ "/" ++ n ++ "." ++ strLower f)]
      ∧ listLookup "stl" p.files = none
      ∧ ∃ c, s'.fs = fsWrite (temp_dir ++ "/" ++ n ++ "." ++ strLower f) c s.fs := by
  intro p s' hrun hsucc
  unfold export_object at hrun
  dsimp only at hrun
  repeat' split at hrun
  all_goals rw [Prod.mk.injEq] at hrun
  all_goals obtain ⟨h1, h2⟩ := hrun
  all_goals first
    | (injection h1 with h3
       subst h3
       subst h2
       first
         | exact ⟨rfl, by rcases hf with h | h <;> simp [listLookup, h], _, rfl⟩
         | simp [errPayload] at hsucc)
    | injection h1

/-- C6 amended witness: the concrete successful export of the mock
object b in step format. -/
theorem c6_amended_step_export_single_artifact_witness :
    ({ status := "success", message := "Exported b to step format", objectId := some "b",
       files := [("step", temp_dir ++ "/b.step")] } : Payload).files
        = [(strLower "step", temp_dir ++ "/" ++ "b" ++ "." ++ strLower "step")]
    ∧ listLookup "stl"
        ({ status := "success", message := "Exported b to step format", objectId := some "b",
           files := [("step", temp_dir ++ "/b.step")] } : Payload).files = none
    ∧ ∃ c, ({ c6State with
              fs := fsWrite (temp_dir ++ "/b.step") "Mock STEP file content for b" c6State.fs
            } : Sys).fs
        = fsWrite (temp_dir ++ "/" ++ "b" ++ "." ++ strLower "step") c c6State.fs :=
  c6_amended_step_export_single_artifact envMock c6State "b" "step" true (Or.inl rfl)
    { status := "success", message := "Exported b to step format", objectId := some "b",
      files := [("step", temp_dir ++ "/b.step")] }
    { c6State with
      fs := fsWrite (temp_dir ++ "/b.step") "Mock STEP file content for b" c6State.fs }
    (by decide) rfl

/-- State whose active workspace holds one object named b carrying an
engine handle, over an empty filesystem. -/
def c7State : Sys :=
  { workspaces := [("default",
      { objects := [("b", ObjData.box 1 1 1 true (some 0))], currentObject := some "b" })],
    currentWorkspaceId := "default", fs := [] }

/-- C7 counterexample: an exported STEP artifact whose first line merely
contains the signature token without beginning with it still passes
validation — the check is a substring test, not a begins-with test. -/
theorem c7_counterexample :
    payloadStatus (run envTamper (Op.exportObject "b" "step" true) c7State).1 = some "success"
    ∧ strStartsWith (firstLine "junk ISO-10303-21;\nEND-ISO-10303-21;") stepSignature = false
    ∧ listLookup (temp_dir ++ "/b.step")
        (run envTamper (Op.exportObject "b" "step" true) c7State).2.fs
        = some "junk ISO-10303-21;\nEND-ISO-10303-21;" := by
  decide

/-- C7 (amended): validated STEP export fails with the validation error
payload exactly when the written content is empty or its first line does
not contain the signature token ISO-10303 (a substring test, not a
begins-with test), and succeeds exactly otherwise. -/
theorem c7_amended_validation_contains (env : Env) (s : Sys) (n : String) (ws : Workspace)
    (obj : ObjData) (g : Geo) (c : String)
    (hav : env.cadqueryAvailable = true)
    (hws : getWs s = some ws)
    (hobj : listLookup n ws.objects = some obj)
    (hwp : obj.workplane = some g)
    (hc : env.engine.stepContent (solidSel env g) = Except.ok c) :
    (payloadStatus (export_object env n "step" true s).1 = some "error"
       ↔ (c = "" ∨ strContains (firstLine c) stepSignature = false))
    ∧ (payloadStatus (export_object env n "step" true s).1 = some "success"
       ↔ (c ≠ "" ∧ strContains (firstLine c) stepSignature = true)) := by
  unfold export_object
  rw [hws]
  dsimp only
  rw [hobj]
  dsimp only
  rw [hav]
  rw [show strLower "step" = "step" from rfl]
  simp only [show (("step" : String) = "stl") = False by simp,
    show (decide (("step" : String) = "step") || decide (("step" : String) = "stp")) = true by simp,
    if_false, if_true, Bool.and_self, Bool.true_and, Bool.and_true, if_true]
  rw [hwp]
  dsimp only
  rw [hc]
  dsimp only
  simp only [fsWrite, listLookup_insert_self]
  by_cases hc0 : c = ""
  · simp [hc0, errPayload, payloadStatus]
  · by_cases hfl : firstLine c = ""
    · simp [hc0, hfl, errPayload, payloadStatus,
        show strContains "" stepSignature = false from rfl]
    · by_cases hcont : strContains (firstLine c) stepSignature
      · simp [hc0, hfl, hcont, errPayload, payloadStatus]
      · simp [hc0, hfl, hcont, errPayload, payloadStatus]

/-- C7 amended witness: a well-formed STEP artifact passes validated
export at a concrete input. -/
theorem c7_amended_validation_contains_witness :
    payloadStatus (export_object envReal "b" "step" true c7State).1 = some "success" :=
  (c7_amended_validation_contains envReal c7State "b"
      { objects := [("b", ObjData.box 1 1 1 true (some 0))], currentObject := some "b" }
      (ObjData.box 1 1 1 true (some 0)) 0 "ISO-10303-21;\nEND-ISO-10303-21;"
      rfl rfl rfl rfl rfl).2.mpr (by decide)

/-- Default name generated for the next object with the given kind
prefix: the prefix, an underscore, and the current object count of the
active workspace. -/
def nextDefaultName (pre : String) (s : Sys) : String :=
  match getWs s with
  | some ws => pre ++ "_" ++ toString ws.objects.length
  | none => pre ++ "_0"

/-- C8: create_box with no explicit name behaves exactly as if called
with the name prefix_count (count being the active workspace's current
object count), and three unnamed boxes in the fresh default workspace get
the names box_0, box_1, box_2 in creation order. -/
theorem c8_default_names :
    (∀ env w l h c s, create_box env w l h c none s
        = create_box env w l h c (some (nextDefaultName "box" s)) s)
    ∧ wsObjectNames (runOps envMock
        [Op.createBox 1 1 1 true none, Op.createBox 1 1 1 true none,
         Op.createBox 1 1 1 true none] initSys) = some ["box_0", "box_1", "box_2"] := by
  constructor
  · intro env w l h c s
    unfold create_box nextDefaultName
    cases hws : getWs s with
    | none => rfl
    | some ws => rfl
  · decide

/-- C9: export_step with an explicit nonempty path appends a default
.step extension exactly when the path lacks a case-insensitive
step-family suffix; on success the payload reports the resolved step path
together with the scratch-directory STL companion, which is present on
disk; and no post-write validation happens: the call succeeds whenever
the engine calls succeed, whatever the written content is (and always in
mock mode). -/
theorem c9_export_step_path_companion_no_validation (env : Env) (s : Sys) (n p : String)
    (ws : Workspace) (obj : ObjData)
    (hp : p ≠ "")
    (hws : getWs s = some ws)
    (hobj : listLookup n ws.objects = some obj) :
    (resolveStepPath n (some p) = if endsWithStepFamily p then p else p ++ ".step")
    ∧ (∀ q s', export_step env n (some p) s = (OpResult.ret q, s') → q.status = "success" →
        q.files = [("step", resolveStepPath n (some p)),
                   ("stl", temp_dir ++ "/" ++ n ++ ".stl")]
        ∧ (listLookup (temp_dir ++ "/" ++ n ++ ".stl") s'.fs).isSome = true)
    ∧ (env.cadqueryAvailable = false →
        payloadStatus (export_step env n (some p) s).1 = some "success")
    ∧ (∀ g c c2, obj.workplane = some g →
        env.engine.stepContent (solidSel env g) = Except.ok c →
        env.engine.stlContent g = Except.ok c2 →
        payloadStatus (export_step env n (some p) s).1 = some "success") := by
  refine ⟨?_, ?_, ?_, ?_⟩
  · unfold resolveStepPath
    simp [hp]
  · intro q s' hrun hsucc
    unfold export_step at hrun
    rw [hws] at hrun
    dsimp only at hrun
    rw [hobj] at hrun
    dsimp only at hrun
    repeat' split at hrun
    all_goals rw [Prod.mk.injEq] at hrun
    all_goals obtain ⟨h1, h2⟩ := hrun
    all_goals injection h1 with h3
    all_goals subst h3
    all_goals subst h2
    all_goals first
      | exact ⟨rfl, by simp [fsWrite, listLookup_insert_self]⟩
      | simp [errPayload] at hsucc
  · intro hm
    unfold export_step
    rw [hws]
    dsimp only
    rw [hobj]
    dsimp only
    rw [hm]
    rfl
  · intro g c c2 hwp hcstep hcstl
    unfold export_step
    rw [hws]
    dsimp only
    rw [hobj]
    dsimp only
    cases hav : env.cadqueryAvailable with
    | false => rfl
    | true =>
      rw [hwp]
      dsimp only
      rw [hcstep]
      dsimp only
      rw [hcstl]
      rfl

/-- C9 witness: a concrete mock-mode export with explicit path "out". -/
theorem c9_export_step_witness :
    resolveStepPath "a" (some "out")
        = (if endsWithStepFamily "out" then "out" else "out" ++ ".step")
    ∧ payloadStatus (export_step envMock "a" (some "out") pairState).1 = some "success" :=
  ⟨(c9_export_step_path_companion_no_validation envMock pairState "a" "out" pairWs
      (ObjData.box 1 1 1 true (some 0)) (by decide) rfl rfl).1,
   (c9_export_step_path_companion_no_validation envMock pairState "a" "out" pairWs
      (ObjData.box 1 1 1 true (some 0)) (by decide) rfl rfl).2.2.1 rfl⟩

/-- State with one object named box_0 and the bridge script file on
disk. -/
def c10State : Sys :=
  { workspaces := [("default",
      { objects := [("box_0", ObjData.box 1 1 1 true none)], currentObject := some "box_0" })],
    currentWorkspaceId := "default",
    fs := [(bridgeScriptFile, "result = cq.Workplane()")] }

/-- C10 counterexample: sync_object_from_editor with an explicit name that
already exists reports success with that object id and changes nothing,
but a subsequent export of that id succeeds instead of failing with the
not-found error. -/
theorem c10_counterexample :
    payloadStatus (run envMock (Op.syncFromEditor (some "box_0")) c10State).1 = some "success"
    ∧ payloadObjectId (run envMock (Op.syncFromEditor (some "box_0")) c10State).1 = some "box_0"
    ∧ (run envMock (Op.syncFromEditor (some "box_0")) c10State).2 = c10State
    ∧ payloadStatus (run envMock (Op.exportObject "box_0" "stl" true) c10State).1
        = some "success" := by
  decide

/-- C10 (amended): sync_object_from_editor never changes the state; on a
success report the object id is the explicit name or synced_count and the
script text read from the shared script file is echoed back; and a
subsequent export of the reported id fails with the not-found error
payload unless an object of that name already existed in the workspace
before the call. -/
theorem c10_amended_sync_frame (env : Env) (s : Sys) (nm : Option String) :
    (sync_object_from_editor env nm s).2 = s
    ∧ (∀ ws, getWs s = some ws →
        (∀ p, (sync_object_from_editor env nm s).1 = OpResult.ret p → p.status = "success" →
          p.objectId = some (nm.getD ("synced_" ++ toString ws.objects.length))
          ∧ p.script = listLookup bridgeScriptFile s.fs)
        ∧ (∀ idn, listLookup idn ws.objects = none → ∀ f v,
            export_object env idn f v s
              = (OpResult.ret (errPayload ("Object \x27" ++ idn ++ "\x27 not found")), s))) := by
  constructor
  · unfold sync_object_from_editor
    dsimp only
    repeat' split
    all_goals rfl
  · intro ws hws
    constructor
    · intro p hrun hsucc
      unfold sync_object_from_editor at hrun
      rw [hws] at hrun
      dsimp only at hrun
      split at hrun
      · injection hrun with h3
        subst h3
        simp [errPayload] at hsucc
      · next script heq =>
          injection hrun with h3
          subst h3
          exact ⟨rfl, heq.symm⟩
    · intro idn hnone f v
      unfold export_object
      rw [hws]
      dsimp only
      rw [hnone]

/-- C10 amended witness: at a concrete state, syncing changes nothing and
a fresh name subsequently fails to export. -/
theorem c10_amended_sync_frame_witness :
    (sync_object_from_editor envMock (some "ghost") c10State).2 = c10State
    ∧ export_object envMock "ghost" "stl" true c10State
        = (OpResult.ret (errPayload ("Object \x27" ++ "ghost" ++ "\x27 not found")), c10State) :=
  ⟨(c10_amended_sync_frame envMock c10State (some "ghost")).1,
   ((c10_amended_sync_frame envMock c10State (some "ghost")).2
      { objects := [("box_0", ObjData.box 1 1 1 true none)], currentObject := some "box_0" }
      rfl).2 "ghost" rfl "stl" true⟩

end CadQueryMcp
